import Mathlib

/-!
Verification of pico-apiserver's service account token authentication middleware.

A shallow embedding of `pkg/pico-apiserver/auth.go` and a verification of the
authentication pipeline against its specification.

* Go strings are byte sequences (`GoString`); string literals are the UTF-8
  encoding of their source text (`str`).
* The effects of one run of the handler returned by `authMiddleware` (log
  lines, the header read, the TokenReview call, `respondError`, the call of
  the wrapped handler) are recorded, in program order, as a list of `Event`s.
* The identity service is an arbitrary function from the request context and
  the submitted TokenReview to the pair `(result, err)` the client returns.
-/

namespace picoapiserver

/-! ## Go strings and the `strings` functions the file uses -/

/-- Go `string`: an immutable sequence of bytes. -/
abbrev GoString := List UInt8

/-- A Go string literal: the UTF-8 encoding of the literal's text. -/
def str (s : String) : GoString := s.data.flatMap String.utf8EncodeChar

/-- Go `strings.HasPrefix(s, p)`:
`len(s) >= len(p) && s[:len(p)] == p`. -/
def HasPrefix (s p : GoString) : Bool :=
  decide (s.length ≥ p.length) && decide (s.take p.length = p)

/-- Go `strings.Index(s, sep)`: the index of the first instance of `sep` in
`s`; `none` stands for Go's `-1`. -/
def Index : GoString → GoString → Option Nat
  | s, sep =>
    if HasPrefix s sep then some 0
    else
      match s with
      | [] => none
      | _ :: t => (Index t sep).map (· + 1)

/-- The loop of Go `strings.genSplit` (with `sepSave = 0`): at most `k` cuts at
successive first instances of `sep`, the rest of the string is the last piece.
```go
for i < n { m := Index(s, sep); if m < 0 { break }
            a[i] = s[:m]; s = s[m+len(sep):]; i++ }
a[i] = s
``` -/
def genSplitLoop : Nat → GoString → GoString → List GoString
  | 0, s, _ => [s]
  | k + 1, s, sep =>
    match Index s sep with
    | none => [s]
    | some m => s.take m :: genSplitLoop k (s.drop (m + sep.length)) sep

/-- Go `strings.SplitN(s, sep, n)` for a non-empty separator: `n = 0` gives no
pieces, `n > 0` at most `n` pieces (the last one is the unsplit remainder),
`n < 0` all pieces (a string of length `l` has at most `l` instances of a
non-empty separator). The empty separator, which Go handles by splitting after
each UTF-8 sequence, is not used by this program and yields no pieces here. -/
def SplitN (s sep : GoString) (n : Int) : List GoString :=
  if n = 0 ∨ sep = [] then []
  else if n < 0 then genSplitLoop s.length s sep
  else genSplitLoop (n.toNat - 1) s sep

/-! ## Data model -/

/-- Go `error` values: an error produced by a callee, or one built by
`fmt.Errorf` with a `%w` verb, which keeps the wrapped error. -/
inductive GoError where
  | base (text : GoString)
  | wrapped (text : GoString) (cause : GoError)
  deriving DecidableEq

/-- The `Error()` method: the error's text. -/
def GoError.Error : GoError → GoString
  | .base t => t
  | .wrapped t _ => t

/-- Go `fmt.Errorf("failed to review token: %w", err)`. -/
def errorfFailedToReviewToken (err : GoError) : GoError :=
  .wrapped (str "failed to review token: " ++ err.Error) err

/-- The request-scoped `context.Context`, an uninterpreted value handed on to
the identity client. -/
structure Context where
  ident : Nat
  deriving DecidableEq

/-- The fields of `authv1.UserInfo` the program reads. -/
structure UserInfo where
  Username : GoString
  deriving DecidableEq

/-- The fields of `authv1.TokenReviewSpec` the program writes. -/
structure TokenReviewSpec where
  Token : GoString
  deriving DecidableEq

/-- The fields of `authv1.TokenReviewStatus` the program reads. -/
structure TokenReviewStatus where
  Authenticated : Bool
  User : UserInfo
  deriving DecidableEq

/-- The Kubernetes `authv1.TokenReview` object. -/
structure TokenReview where
  Spec : TokenReviewSpec
  Status : TokenReviewStatus
  deriving DecidableEq

/-- The zero value of `authv1.TokenReviewStatus`. -/
def TokenReviewStatus.zero : TokenReviewStatus := ⟨false, ⟨[]⟩⟩

/-- The identity client: the behaviour of
`clientset.AuthenticationV1().TokenReviews().Create(ctx, tokenReview, opts)`,
any function to the returned pair `(result, err)`; `err = none` is Go's `nil`.
The client always allocates `result`. -/
structure K8sClient where
  createTokenReview : Context → TokenReview → TokenReview × Option GoError

/-- The two fields of the server configuration the middleware reads. -/
structure Config where
  Namespace : GoString
  DisableAuth : Bool

/-- The server: its configuration and its identity client. -/
structure Server where
  config : Config
  k8sClient : K8sClient

/-- The parts of `*http.Request` the middleware reads: the value of the
`Authorization` header (`none` when the header is absent) and the context. -/
structure Request where
  Authorization : Option GoString
  ctx : Context

/-- Go `r.Header.Get("Authorization")`: the header's value, `""` when absent. -/
def Request.HeaderGetAuthorization (r : Request) : GoString :=
  r.Authorization.getD []

/-- Go `http.StatusUnauthorized`. -/
def StatusUnauthorized : Nat := 401

/-- Go `http.StatusForbidden`. -/
def StatusForbidden : Nat := 403

/-- The observable effects of a run of the middleware. -/
inductive Event where
  /-- A call of `log.Printf` with the formatted message. -/
  | logPrintf (msg : GoString)
  /-- A call of `r.Header.Get(key)`. -/
  | headerGet (key : GoString)
  /-- The TokenReview `Create` call with its context and request object. -/
  | tokenReviewCreate (ctx : Context) (review : TokenReview)
  /-- A call of `respondError(w, status, code, message)`. -/
  | respondError (status : Nat) (code message : GoString)
  /-- A call of `next(w, r)`: the wrapped handler is invoked. -/
  | next
  deriving DecidableEq

/-- The event is an invocation of the wrapped handler. -/
def Event.isNext : Event → Bool
  | .next => true
  | _ => false

/-- The event is a call of `respondError`. -/
def Event.isRespondError : Event → Bool
  | .respondError _ _ _ => true
  | _ => false

/-- The event is a call of the identity client. -/
def Event.isTokenReviewCreate : Event → Bool
  | .tokenReviewCreate _ _ => true
  | _ => false

/-- The event is a read of a request header. -/
def Event.isHeaderGet : Event → Bool
  | .headerGet _ => true
  | _ => false

/-- The event is a log record. -/
def Event.isLog : Event → Bool
  | .logPrintf _ => true
  | _ => false

/-! ## The functions of `auth.go` -/

/-- Method `(*Server).isAuthorizedServiceAccount` (auth.go:98-106). -/
def isAuthorizedServiceAccount (s : Server) (username : GoString) : Bool :=
  -- fmt.Sprintf("system:serviceaccount:%s:pico-apiserver", s.config.Namespace)
  let expectedPrefix := str "system:serviceaccount:" ++ s.config.Namespace ++ str ":pico-apiserver"
  let picoNamespacePrefix := str "system:serviceaccount:pico:pico-apiserver"
  HasPrefix username expectedPrefix || HasPrefix username picoNamespacePrefix

/-- Method `(*Server).validateServiceAccountToken` (auth.go:68-95): the returned
triple `(authenticated, username, err)` and the events of the call. -/
def validateServiceAccountToken (s : Server) (ctx : Context) (token : GoString) :
    (Bool × GoString × Option GoError) × List Event :=
  let tokenReview : TokenReview := ⟨⟨token⟩, TokenReviewStatus.zero⟩
  let call := s.k8sClient.createTokenReview ctx tokenReview
  let result := call.1
  let events := [Event.tokenReviewCreate ctx tokenReview]
  match call.2 with
  | some err => ((false, [], some (errorfFailedToReviewToken err)), events)
  | none =>
    if !result.Status.Authenticated then ((false, [], none), events)
    else
      let username := result.Status.User.Username
      ((true, username, none), events)

/-- The handler returned by `(*Server).authMiddleware(next)` (auth.go:15-65),
run on request `r`: the events it produces, in order. -/
def authMiddleware (s : Server) (r : Request) : List Event :=
  if s.config.DisableAuth then
    [.logPrintf (str "WARNING: Authentication is disabled - allowing unauthenticated request"),
     .next]
  else
    let authHeader := r.HeaderGetAuthorization
    Event.headerGet (str "Authorization") ::
    if authHeader = [] then
      [.respondError StatusUnauthorized (str "UNAUTHORIZED") (str "Missing authorization header")]
    else
      let parts := SplitN authHeader (str " ") 2
      if parts.length ≠ 2 ∨ parts.getD 0 [] ≠ str "Bearer" then
        [.respondError StatusUnauthorized (str "UNAUTHORIZED")
          (str "Invalid authorization header format")]
      else
        let token := parts.getD 1 []
        let v := validateServiceAccountToken s r.ctx token
        let authenticated := v.1.1
        let serviceAccount := v.1.2.1
        v.2 ++
        match v.1.2.2 with
        | some err =>
          [.logPrintf (str "Token validation error: " ++ err.Error),
           .respondError StatusUnauthorized (str "UNAUTHORIZED") (str "Token validation failed")]
        | none =>
          if !authenticated then
            [.respondError StatusUnauthorized (str "UNAUTHORIZED")
              (str "Invalid or expired token")]
          else if !isAuthorizedServiceAccount s serviceAccount then
            [.logPrintf (str "Unauthorized service account: " ++ serviceAccount),
             .respondError StatusForbidden (str "FORBIDDEN")
               (str "Service account not authorized")]
          else
            [.logPrintf (str "Authenticated request from service account: " ++ serviceAccount),
             .next]


/-! ## Concrete servers and requests -/

/-- A server whose identity client answers every review with the given status
and error. -/
def exampleServer (ns : GoString) (disableAuth : Bool) (status : TokenReviewStatus)
    (err : Option GoError) : Server :=
  ⟨⟨ns, disableAuth⟩, ⟨fun _ tr => (⟨tr.Spec, status⟩, err)⟩⟩

/-- A request carrying the given `Authorization` header value. -/
def exampleRequest (header : Option GoString) : Request := ⟨header, ⟨0⟩⟩

/-- The part of a trace that leaves the middleware towards the client or the
log: the error responses and the log records, in order. -/
def responsesAndLogs (t : List Event) : List Event :=
  t.filter (fun e => e.isRespondError || e.isLog)

/-! ## Lemmas on the string functions -/

theorem str_space : str " " = [32] := by decide

theorem str_Bearer : str "Bearer" = [66, 101, 97, 114, 101, 114] := by decide

theorem HasPrefix_iff (s p : GoString) : HasPrefix s p = true ↔ p <+: s := by
  unfold HasPrefix
  rw [List.prefix_iff_eq_take]
  constructor
  · intro h
    simp only [Bool.and_eq_true, decide_eq_true_eq] at h
    exact h.2.symm
  · intro h
    simp only [Bool.and_eq_true, decide_eq_true_eq]
    refine ⟨?_, h.symm⟩
    have := congrArg List.length h
    simp only [List.length_take] at this
    omega

theorem HasPrefix_single_cons (c d : UInt8) (t : GoString) :
    HasPrefix (d :: t) [c] = decide (d = c) := by
  simp [HasPrefix]

theorem Index_single_nil (c : UInt8) : Index [] [c] = none := by
  simp [Index, HasPrefix]

theorem Index_single_cons (c d : UInt8) (t : GoString) :
    Index (d :: t) [c] = if d = c then some 0 else (Index t [c]).map (· + 1) := by
  rw [Index, HasPrefix_single_cons]
  simp

theorem Index_single_none (c : UInt8) (s : GoString) : Index s [c] = none ↔ c ∉ s := by
  induction s with
  | nil => simp [Index_single_nil]
  | cons d t ih =>
    rw [Index_single_cons]
    by_cases h : d = c
    · simp [h]
    · simp [h, ih, Ne.symm h]

theorem Index_single_some (c : UInt8) (s : GoString) (m : Nat) :
    Index s [c] = some m ↔ c ∉ s.take m ∧ s = s.take m ++ c :: s.drop (m + 1) := by
  induction s generalizing m with
  | nil => simp [Index_single_nil]
  | cons d t ih =>
    rw [Index_single_cons]
    by_cases h : d = c
    · subst h
      cases m with
      | zero => simp
      | succ k => simp
    · cases m with
      | zero => simp [h]
      | succ k =>
        simp only [h, if_false, Option.map_eq_some', Nat.add_right_cancel_iff,
          exists_eq_right, ih, List.take_succ_cons, List.mem_cons, not_or,
          List.drop_succ_cons, List.cons_append, List.cons.injEq, true_and]
        constructor
        · rintro ⟨h1, h2⟩
          exact ⟨⟨Ne.symm h, h1⟩, h2⟩
        · rintro ⟨⟨_, h1⟩, h2⟩
          exact ⟨h1, h2⟩


theorem Index_single_append (c : UInt8) (a b : GoString) (h : c ∉ a) :
    Index (a ++ c :: b) [c] = some a.length := by
  rw [Index_single_some]
  simp [h]

theorem SplitN_space_two (h : GoString) :
    SplitN h (str " ") 2 =
      match Index h [32] with
      | none => [h]
      | some m => [h.take m, h.drop (m + 1)] := by
  unfold SplitN
  rw [str_space]
  simp only [OfNat.ofNat_ne_zero, List.cons_ne_nil, or_self, if_false]
  rw [if_neg (by decide)]
  show genSplitLoop 1 h [32] = _
  unfold genSplitLoop
  cases Index h [32] with
  | none => rfl
  | some m => simp [genSplitLoop]

theorem SplitN_space_two_eq_pair (h a b : GoString) :
    SplitN h (str " ") 2 = [a, b] ↔ 32 ∉ a ∧ h = a ++ 32 :: b := by
  rw [SplitN_space_two]
  constructor
  · intro hs
    cases hi : Index h [32] with
    | none => rw [hi] at hs; simp at hs
    | some m =>
      rw [hi] at hs
      simp only [List.cons.injEq, and_true] at hs
      obtain ⟨h1, h2⟩ := (Index_single_some 32 h m).1 hi
      rw [hs.1, hs.2] at h2
      rw [hs.1] at h1
      exact ⟨h1, h2⟩
  · rintro ⟨h1, h2⟩
    subst h2
    rw [Index_single_append 32 a b h1]
    simp

theorem SplitN_space_two_nil : SplitN [] (str " ") 2 = [[]] := by
  rw [SplitN_space_two]
  rfl

theorem SplitN_Bearer (token : GoString) :
    SplitN (str "Bearer " ++ token) (str " ") 2 = [str "Bearer", token] := by
  rw [SplitN_space_two_eq_pair]
  constructor
  · decide
  · have : str "Bearer " = str "Bearer" ++ [32] := by decide
    rw [this]
    simp

/-- The scheme check of the middleware fails exactly when the parts are not
`["Bearer", token]` for some `token`. -/
theorem scheme_check (parts : List GoString) :
    (parts.length ≠ 2 ∨ parts.getD 0 [] ≠ str "Bearer") ↔
      ¬ ∃ token, parts = [str "Bearer", token] := by
  match parts with
  | [] => simp
  | [a] => simp
  | [a, b] =>
    simp only [List.length_cons, List.length_nil, ne_eq, not_true_eq_false, false_or,
      List.getD_cons_zero, List.cons.injEq, and_true, exists_and_left, exists_eq', and_true]
  | a :: b :: c :: d => simp


theorem str_Bearer_space_append (token : GoString) :
    str "Bearer " ++ token = str "Bearer" ++ 32 :: token := by
  have h : str "Bearer " = str "Bearer" ++ [32] := by decide
  rw [h]
  simp

theorem SplitN_eq_Bearer_iff (h token : GoString) :
    SplitN h (str " ") 2 = [str "Bearer", token] ↔ h = str "Bearer " ++ token := by
  rw [SplitN_space_two_eq_pair, str_Bearer_space_append]
  constructor
  · exact fun hx => hx.2
  · exact fun hx => ⟨by decide, hx⟩

theorem two_parts_iff (parts : List GoString) :
    (parts.length = 2 ∧ parts.head? = some (str "Bearer")) ↔
      ∃ token, parts = [str "Bearer", token] := by
  match parts with
  | [] => simp
  | [a] => simp
  | [a, b] => simp
  | a :: b :: c :: d => simp

/-! ## The paths of the middleware -/

theorem validateServiceAccountToken_events (s : Server) (ctx : Context) (token : GoString) :
    (validateServiceAccountToken s ctx token).2 =
      [Event.tokenReviewCreate ctx ⟨⟨token⟩, TokenReviewStatus.zero⟩] := by
  unfold validateServiceAccountToken
  simp only
  split
  · rfl
  · split <;> rfl

theorem authMiddleware_disabled (s : Server) (r : Request) (hd : s.config.DisableAuth = true) :
    authMiddleware s r =
      [.logPrintf (str "WARNING: Authentication is disabled - allowing unauthenticated request"),
       .next] := by
  unfold authMiddleware
  rw [if_pos hd]

theorem authMiddleware_missing (s : Server) (r : Request) (hd : s.config.DisableAuth = false)
    (hh : r.HeaderGetAuthorization = []) :
    authMiddleware s r =
      [.headerGet (str "Authorization"),
       .respondError 401 (str "UNAUTHORIZED") (str "Missing authorization header")] := by
  unfold authMiddleware
  simp [hd, hh, StatusUnauthorized]

theorem authMiddleware_malformed (s : Server) (r : Request) (hd : s.config.DisableAuth = false)
    (hh : r.HeaderGetAuthorization ≠ [])
    (hp : ¬ ∃ token, SplitN r.HeaderGetAuthorization (str " ") 2 = [str "Bearer", token]) :
    authMiddleware s r =
      [.headerGet (str "Authorization"),
       .respondError 401 (str "UNAUTHORIZED") (str "Invalid authorization header format")] := by
  unfold authMiddleware
  rw [← scheme_check] at hp
  simp only [hd, Bool.false_eq_true, if_false, hh, if_pos hp, StatusUnauthorized]

theorem authMiddleware_bearer (s : Server) (r : Request) (token : GoString)
    (hd : s.config.DisableAuth = false)
    (hp : SplitN r.HeaderGetAuthorization (str " ") 2 = [str "Bearer", token]) :
    authMiddleware s r =
      .headerGet (str "Authorization") ::
      .tokenReviewCreate r.ctx ⟨⟨token⟩, TokenReviewStatus.zero⟩ ::
      match (validateServiceAccountToken s r.ctx token).1.2.2 with
      | some err =>
        [.logPrintf (str "Token validation error: " ++ err.Error),
         .respondError 401 (str "UNAUTHORIZED") (str "Token validation failed")]
      | none =>
        if (validateServiceAccountToken s r.ctx token).1.1 = false then
          [.respondError 401 (str "UNAUTHORIZED") (str "Invalid or expired token")]
        else if isAuthorizedServiceAccount s (validateServiceAccountToken s r.ctx token).1.2.1
            = false then
          [.logPrintf (str "Unauthorized service account: " ++
              (validateServiceAccountToken s r.ctx token).1.2.1),
           .respondError 403 (str "FORBIDDEN") (str "Service account not authorized")]
        else
          [.logPrintf (str "Authenticated request from service account: " ++
              (validateServiceAccountToken s r.ctx token).1.2.1),
           .next] := by
  have hh : r.HeaderGetAuthorization ≠ [] := by
    intro h0
    rw [h0, SplitN_space_two_nil] at hp
    simp at hp
  have hs : ¬ (([str "Bearer", token] : List GoString).length ≠ 2 ∨
      str "Bearer" ≠ str "Bearer") := by
    simp
  unfold authMiddleware
  simp only [hd, Bool.false_eq_true, if_false, hh, hp, if_neg hs,
    validateServiceAccountToken_events, List.getD_cons_succ, List.getD_cons_zero,
    StatusUnauthorized, StatusForbidden, List.singleton_append, Bool.not_eq_true']


theorem validateServiceAccountToken_result (s : Server) (ctx : Context) (token : GoString) :
    (validateServiceAccountToken s ctx token).1 =
      match (s.k8sClient.createTokenReview ctx ⟨⟨token⟩, TokenReviewStatus.zero⟩).2 with
      | some err => (false, [], some (errorfFailedToReviewToken err))
      | none =>
        if (s.k8sClient.createTokenReview ctx ⟨⟨token⟩, TokenReviewStatus.zero⟩).1.Status.Authenticated
        then (true,
          (s.k8sClient.createTokenReview ctx ⟨⟨token⟩, TokenReviewStatus.zero⟩).1.Status.User.Username,
          none)
        else (false, [], none) := by
  unfold validateServiceAccountToken
  simp only
  split
  · rfl
  · split <;> simp_all

theorem authMiddleware_bearer_result (s : Server) (r : Request) (token : GoString)
    (a : Bool) (u : GoString) (e : Option GoError)
    (hd : s.config.DisableAuth = false)
    (hp : SplitN r.HeaderGetAuthorization (str " ") 2 = [str "Bearer", token])
    (hv : (validateServiceAccountToken s r.ctx token).1 = (a, u, e)) :
    authMiddleware s r =
      .headerGet (str "Authorization") ::
      .tokenReviewCreate r.ctx ⟨⟨token⟩, TokenReviewStatus.zero⟩ ::
      match e with
      | some err =>
        [.logPrintf (str "Token validation error: " ++ err.Error),
         .respondError 401 (str "UNAUTHORIZED") (str "Token validation failed")]
      | none =>
        if a = false then
          [.respondError 401 (str "UNAUTHORIZED") (str "Invalid or expired token")]
        else if isAuthorizedServiceAccount s u = false then
          [.logPrintf (str "Unauthorized service account: " ++ u),
           .respondError 403 (str "FORBIDDEN") (str "Service account not authorized")]
        else
          [.logPrintf (str "Authenticated request from service account: " ++ u), .next] := by
  rw [authMiddleware_bearer s r token hd hp, hv]

/-- The decision table of the middleware: every run takes exactly one of the
seven paths of the source, with the trace of that path. -/
theorem authMiddleware_table (s : Server) (r : Request) :
    (s.config.DisableAuth = true ∧
      authMiddleware s r =
        [.logPrintf (str "WARNING: Authentication is disabled - allowing unauthenticated request"),
         .next]) ∨
    (s.config.DisableAuth = false ∧ r.HeaderGetAuthorization = [] ∧
      authMiddleware s r =
        [.headerGet (str "Authorization"),
         .respondError 401 (str "UNAUTHORIZED") (str "Missing authorization header")]) ∨
    (s.config.DisableAuth = false ∧ r.HeaderGetAuthorization ≠ [] ∧
      (¬ ∃ token, SplitN r.HeaderGetAuthorization (str " ") 2 = [str "Bearer", token]) ∧
      authMiddleware s r =
        [.headerGet (str "Authorization"),
         .respondError 401 (str "UNAUTHORIZED") (str "Invalid authorization header format")]) ∨
    (s.config.DisableAuth = false ∧
      ∃ token, SplitN r.HeaderGetAuthorization (str " ") 2 = [str "Bearer", token] ∧
        ((∃ a u err, (validateServiceAccountToken s r.ctx token).1 = (a, u, some err) ∧
            authMiddleware s r =
              [.headerGet (str "Authorization"),
               .tokenReviewCreate r.ctx ⟨⟨token⟩, TokenReviewStatus.zero⟩,
               .logPrintf (str "Token validation error: " ++ err.Error),
               .respondError 401 (str "UNAUTHORIZED") (str "Token validation failed")]) ∨
         (∃ u, (validateServiceAccountToken s r.ctx token).1 = (false, u, none) ∧
            authMiddleware s r =
              [.headerGet (str "Authorization"),
               .tokenReviewCreate r.ctx ⟨⟨token⟩, TokenReviewStatus.zero⟩,
               .respondError 401 (str "UNAUTHORIZED") (str "Invalid or expired token")]) ∨
         (∃ u, (validateServiceAccountToken s r.ctx token).1 = (true, u, none) ∧
            isAuthorizedServiceAccount s u = false ∧
            authMiddleware s r =
              [.headerGet (str "Authorization"),
               .tokenReviewCreate r.ctx ⟨⟨token⟩, TokenReviewStatus.zero⟩,
               .logPrintf (str "Unauthorized service account: " ++ u),
               .respondError 403 (str "FORBIDDEN") (str "Service account not authorized")]) ∨
         (∃ u, (validateServiceAccountToken s r.ctx token).1 = (true, u, none) ∧
            isAuthorizedServiceAccount s u = true ∧
            authMiddleware s r =
              [.headerGet (str "Authorization"),
               .tokenReviewCreate r.ctx ⟨⟨token⟩, TokenReviewStatus.zero⟩,
               .logPrintf (str "Authenticated request from service account: " ++ u),
               .next]))) := by
  by_cases hd : s.config.DisableAuth = true
  · exact Or.inl ⟨hd, authMiddleware_disabled s r hd⟩
  have hd' : s.config.DisableAuth = false := by simpa using hd
  by_cases hh : r.HeaderGetAuthorization = []
  · exact Or.inr (Or.inl ⟨hd', hh, authMiddleware_missing s r hd' hh⟩)
  by_cases hp : ∃ token, SplitN r.HeaderGetAuthorization (str " ") 2 = [str "Bearer", token]
  swap
  · exact Or.inr (Or.inr (Or.inl ⟨hd', hh, hp, authMiddleware_malformed s r hd' hh hp⟩))
  obtain ⟨token, hp⟩ := hp
  refine Or.inr (Or.inr (Or.inr ⟨hd', token, hp, ?_⟩))
  rcases hv : (validateServiceAccountToken s r.ctx token).1 with ⟨a, u, e⟩
  have ht := authMiddleware_bearer_result s r token a u e hd' hp hv
  cases e with
  | some err => exact Or.inl ⟨a, u, err, rfl, ht⟩
  | none =>
    cases a with
    | false => exact Or.inr (Or.inl ⟨u, rfl, by simpa using ht⟩)
    | true =>
      cases hz : isAuthorizedServiceAccount s u with
      | false =>
        exact Or.inr (Or.inr (Or.inl ⟨u, rfl, hz, by simpa [hz] using ht⟩))
      | true =>
        exact Or.inr (Or.inr (Or.inr ⟨u, rfl, hz, by simpa [hz] using ht⟩))

theorem authMiddleware_review_filter (s : Server) (r : Request) (token : GoString)
    (hd : s.config.DisableAuth = false)
    (hp : SplitN r.HeaderGetAuthorization (str " ") 2 = [str "Bearer", token]) :
    (authMiddleware s r).filter Event.isTokenReviewCreate =
      [.tokenReviewCreate r.ctx ⟨⟨token⟩, TokenReviewStatus.zero⟩] := by
  rw [authMiddleware_bearer s r token hd hp]
  split
  · simp [Event.isTokenReviewCreate]
  · split
    · simp [Event.isTokenReviewCreate]
    · split <;> simp [Event.isTokenReviewCreate]

theorem authMiddleware_no_review (s : Server) (r : Request)
    (h : s.config.DisableAuth = true ∨
      ¬ ∃ token, SplitN r.HeaderGetAuthorization (str " ") 2 = [str "Bearer", token]) :
    (authMiddleware s r).filter Event.isTokenReviewCreate = [] := by
  rcases authMiddleware_table s r with
    ⟨-, ht⟩ | ⟨-, -, ht⟩ | ⟨-, -, -, ht⟩ | ⟨hd, token, hp, -⟩
  · rw [ht]; simp [Event.isTokenReviewCreate]
  · rw [ht]; simp [Event.isTokenReviewCreate]
  · rw [ht]; simp [Event.isTokenReviewCreate]
  · rcases h with h | h
    · rw [hd] at h; simp at h
    · exact absurd ⟨token, hp⟩ h

theorem authMiddleware_review_mem (s : Server) (r : Request) (c : Context) (tr : TokenReview)
    (hm : Event.tokenReviewCreate c tr ∈ authMiddleware s r) :
    s.config.DisableAuth = false ∧ c = r.ctx ∧
      ∃ token, tr = ⟨⟨token⟩, TokenReviewStatus.zero⟩ ∧
        SplitN r.HeaderGetAuthorization (str " ") 2 = [str "Bearer", token] := by
  have hf : Event.tokenReviewCreate c tr ∈
      (authMiddleware s r).filter Event.isTokenReviewCreate := by
    rw [List.mem_filter]
    exact ⟨hm, rfl⟩
  by_cases hd : s.config.DisableAuth = true
  · rw [authMiddleware_no_review s r (Or.inl hd)] at hf
    simp at hf
  have hd' : s.config.DisableAuth = false := by simpa using hd
  by_cases hp : ∃ token, SplitN r.HeaderGetAuthorization (str " ") 2 = [str "Bearer", token]
  · obtain ⟨token, hp⟩ := hp
    rw [authMiddleware_review_filter s r token hd' hp] at hf
    simp only [List.mem_singleton, Event.tokenReviewCreate.injEq] at hf
    exact ⟨hd', hf.1, token, hf.2, hp⟩
  · rw [authMiddleware_no_review s r (Or.inr hp)] at hf
    simp at hf

theorem isAuthorizedServiceAccount_nil (s : Server) :
    isAuthorizedServiceAccount s [] = false := by
  have h1 : (str "system:serviceaccount:").length = 22 := by decide
  have h2 : (str "system:serviceaccount:pico:pico-apiserver").length = 41 := by decide
  simp [isAuthorizedServiceAccount, HasPrefix, h1, h2]

theorem isAuthorizedServiceAccount_config (s₁ s₂ : Server) (h : s₁.config = s₂.config)
    (u : GoString) : isAuthorizedServiceAccount s₁ u = isAuthorizedServiceAccount s₂ u := by
  unfold isAuthorizedServiceAccount
  rw [h]

theorem isAuthorizedServiceAccount_append (s : Server) (u rest : GoString)
    (h : isAuthorizedServiceAccount s u = true) :
    isAuthorizedServiceAccount s (u ++ rest) = true := by
  unfold isAuthorizedServiceAccount at h ⊢
  simp only [Bool.or_eq_true, HasPrefix_iff] at h ⊢
  rcases h with h | h
  · exact Or.inl (h.trans (List.prefix_append u rest))
  · exact Or.inr (h.trans (List.prefix_append u rest))

theorem isAuthorizedServiceAccount_shape (s : Server) (u : GoString)
    (h : isAuthorizedServiceAccount s u = true) :
    str "system:serviceaccount:" <+: u ∧ str ":pico-apiserver" <:+: u := by
  have key : ∀ ns : GoString,
      str "system:serviceaccount:" ++ ns ++ str ":pico-apiserver" <+: u →
        str "system:serviceaccount:" <+: u ∧ str ":pico-apiserver" <:+: u := by
    rintro ns ⟨t, ht⟩
    constructor
    · exact ⟨ns ++ str ":pico-apiserver" ++ t, by rw [← ht]; simp⟩
    · exact ⟨str "system:serviceaccount:" ++ ns, t, ht⟩
  unfold isAuthorizedServiceAccount at h
  simp only [Bool.or_eq_true, HasPrefix_iff] at h
  rcases h with h | h
  · exact key _ h
  · have hl : str "system:serviceaccount:pico:pico-apiserver" =
        str "system:serviceaccount:" ++ str "pico" ++ str ":pico-apiserver" := by decide
    rw [hl] at h
    exact key _ h

/-! ## The claims -/

/-- C1: the handler returned by `authMiddleware` invokes the wrapped handler if
and only if `DisableAuth` is true, or the `Authorization` header (absent or any
string) splits into exactly `["Bearer", token]` and
`validateServiceAccountToken` on that token returns `(true, username, nil)`
with `isAuthorizedServiceAccount(username) = true`; for every configuration and
every behaviour of the identity service. -/
theorem authMiddleware_forwards_iff (s : Server) (r : Request) :
    Event.next ∈ authMiddleware s r ↔
      (s.config.DisableAuth = true ∨
        ∃ token username,
          SplitN r.HeaderGetAuthorization (str " ") 2 = [str "Bearer", token] ∧
          (validateServiceAccountToken s r.ctx token).1 = (true, username, none) ∧
          isAuthorizedServiceAccount s username = true) := by
  by_cases hd : s.config.DisableAuth = true
  · simp [authMiddleware_disabled s r hd, hd]
  · have hd' : s.config.DisableAuth = false := by simpa using hd
    by_cases hp : ∃ token, SplitN r.HeaderGetAuthorization (str " ") 2 = [str "Bearer", token]
    · obtain ⟨token, hp⟩ := hp
      have key : (∃ token' username,
          SplitN r.HeaderGetAuthorization (str " ") 2 = [str "Bearer", token'] ∧
          (validateServiceAccountToken s r.ctx token').1 = (true, username, none) ∧
          isAuthorizedServiceAccount s username = true) ↔
          ∃ username, (validateServiceAccountToken s r.ctx token).1 = (true, username, none) ∧
            isAuthorizedServiceAccount s username = true := by
        constructor
        · rintro ⟨token', username, h1, h2⟩
          rw [hp] at h1
          simp only [List.cons.injEq, and_true, true_and] at h1
          subst h1
          exact ⟨username, h2⟩
        · rintro ⟨username, h2⟩
          exact ⟨token, username, hp, h2⟩
      rw [authMiddleware_bearer s r token hd' hp, key]
      generalize validateServiceAccountToken s r.ctx token = v
      rcases v with ⟨⟨a, u, e⟩, evs⟩
      cases e with
      | some err => simp [hd']
      | none =>
        cases a with
        | false => simp [hd']
        | true =>
          cases hz : isAuthorizedServiceAccount s u with
          | false =>
            simp only [hd', hz, if_true, Bool.true_eq_false, if_false, Bool.false_eq_true,
              false_or, List.mem_cons, List.mem_singleton, reduceCtorEq,
              List.not_mem_nil, or_self, false_iff, not_exists, not_and]
            intro username h2
            simp only [Prod.mk.injEq, and_true, true_and] at h2
            rw [← h2, hz]
            simp
          | true =>
            simp only [hd', hz, Bool.true_eq_false, if_false, Bool.false_eq_true,
              false_or, List.mem_cons, List.mem_singleton, reduceCtorEq, or_true, true_iff]
            exact ⟨fun _ => ⟨u, rfl, hz⟩, fun _ => Or.inl trivial⟩
    · by_cases hh : r.HeaderGetAuthorization = []
      · rw [authMiddleware_missing s r hd' hh]
        simp only [List.mem_cons, List.mem_singleton, reduceCtorEq, List.not_mem_nil,
          or_self, hd', Bool.false_eq_true, false_or, false_iff]
        rintro ⟨token, username, h1, -⟩
        exact hp ⟨token, h1⟩
      · rw [authMiddleware_malformed s r hd' hh hp]
        simp only [List.mem_cons, List.mem_singleton, reduceCtorEq, List.not_mem_nil,
          or_self, hd', Bool.false_eq_true, false_or, false_iff]
        rintro ⟨token, username, h1, -⟩
        exact hp ⟨token, h1⟩


/-- C2: `isAuthorizedServiceAccount(u)` is true if and only if `u` starts with
`"system:serviceaccount:" ++ ns ++ ":pico-apiserver"` for the configured
namespace `ns`, or with the legacy string
`"system:serviceaccount:pico:pico-apiserver"`; the legacy string is accepted
whatever `ns` is, and the comparison is on bytes, so it is case-sensitive (a
username that differs from an accepted one only in letter case is refused). -/
theorem isAuthorizedServiceAccount_iff_starts_with :
    (∀ (s : Server) (u : GoString),
      isAuthorizedServiceAccount s u = true ↔
        (str "system:serviceaccount:" ++ s.config.Namespace ++ str ":pico-apiserver" <+: u ∨
         str "system:serviceaccount:pico:pico-apiserver" <+: u)) ∧
    (∀ (s : Server) (rest : GoString),
      isAuthorizedServiceAccount s (str "system:serviceaccount:pico:pico-apiserver" ++ rest)
        = true) ∧
    (∀ k : K8sClient,
      isAuthorizedServiceAccount ⟨⟨str "pico-system", false⟩, k⟩
        (str "system:serviceaccount:pico-system:pico-apiserver") = true ∧
      isAuthorizedServiceAccount ⟨⟨str "pico-system", false⟩, k⟩
        (str "System:ServiceAccount:pico-system:pico-apiserver") = false ∧
      isAuthorizedServiceAccount ⟨⟨str "pico-system", false⟩, k⟩
        (str "system:serviceaccount:PICO:pico-apiserver") = false) := by
  have main : ∀ (s : Server) (u : GoString),
      isAuthorizedServiceAccount s u = true ↔
        (str "system:serviceaccount:" ++ s.config.Namespace ++ str ":pico-apiserver" <+: u ∨
         str "system:serviceaccount:pico:pico-apiserver" <+: u) := by
    intro s u
    unfold isAuthorizedServiceAccount
    simp only [Bool.or_eq_true, HasPrefix_iff]
  refine ⟨main, ?_, ?_⟩
  · intro s rest
    rw [main]
    exact Or.inr (List.prefix_append _ _)
  · intro k
    refine ⟨?_, ?_, ?_⟩ <;>
    · simp only [isAuthorizedServiceAccount]
      decide

/-- C3: if `DisableAuth` is true then, whatever the request's `Authorization`
header and whatever the identity service would answer, the run is exactly the
warning log line followed by the call of the wrapped handler: the wrapped
handler is invoked exactly once, the identity client is never called, the
header is not read, and no error response is written. -/
theorem authMiddleware_disabled_bypass (s : Server) (r : Request)
    (hd : s.config.DisableAuth = true) :
    authMiddleware s r =
      [.logPrintf (str "WARNING: Authentication is disabled - allowing unauthenticated request"),
       .next] ∧
    (authMiddleware s r).countP Event.isNext = 1 ∧
    (authMiddleware s r).countP Event.isTokenReviewCreate = 0 ∧
    (authMiddleware s r).countP Event.isHeaderGet = 0 ∧
    (authMiddleware s r).countP Event.isRespondError = 0 := by
  rw [authMiddleware_disabled s r hd]
  exact ⟨rfl, rfl, rfl, rfl, rfl⟩

/-- C3, at a concrete input: auth disabled, a malformed header and an identity
service that would fail. -/
theorem authMiddleware_disabled_bypass_witness :
    authMiddleware
        (exampleServer (str "pico-system") true TokenReviewStatus.zero
          (some (.base (str "network"))))
        (exampleRequest (some (str "Token abc"))) =
      [.logPrintf (str "WARNING: Authentication is disabled - allowing unauthenticated request"),
       .next] ∧
    (authMiddleware
        (exampleServer (str "pico-system") true TokenReviewStatus.zero
          (some (.base (str "network"))))
        (exampleRequest (some (str "Token abc")))).countP Event.isNext = 1 ∧
    (authMiddleware
        (exampleServer (str "pico-system") true TokenReviewStatus.zero
          (some (.base (str "network"))))
        (exampleRequest (some (str "Token abc")))).countP Event.isTokenReviewCreate = 0 ∧
    (authMiddleware
        (exampleServer (str "pico-system") true TokenReviewStatus.zero
          (some (.base (str "network"))))
        (exampleRequest (some (str "Token abc")))).countP Event.isHeaderGet = 0 ∧
    (authMiddleware
        (exampleServer (str "pico-system") true TokenReviewStatus.zero
          (some (.base (str "network"))))
        (exampleRequest (some (str "Token abc")))).countP Event.isRespondError = 0 :=
  authMiddleware_disabled_bypass _ _ rfl

/-- C4: in every run of the middleware exactly one of two things happens: the
wrapped handler is invoked exactly once and `respondError` is called zero
times, or the wrapped handler is not invoked and `respondError` is called
exactly once. -/
theorem authMiddleware_forward_xor_error (s : Server) (r : Request) :
    Xor'
      ((authMiddleware s r).countP Event.isNext = 1 ∧
        (authMiddleware s r).countP Event.isRespondError = 0)
      ((authMiddleware s r).countP Event.isNext = 0 ∧
        (authMiddleware s r).countP Event.isRespondError = 1) := by
  rcases authMiddleware_table s r with
    ⟨-, ht⟩ | ⟨-, -, ht⟩ | ⟨-, -, -, ht⟩ |
    ⟨-, token, -, ⟨a, u, err, -, ht⟩ | ⟨u, -, ht⟩ | ⟨u, -, -, ht⟩ | ⟨u, -, -, ht⟩⟩ <;>
  · rw [ht]
    simp [Xor', List.countP_cons, Event.isNext, Event.isRespondError]


/-- C5: with auth enabled and a well-formed Bearer header, whenever the
verifier returns `(true, username, nil)` and
`isAuthorizedServiceAccount(username)` is false, the middleware responds with
status 403, code "FORBIDDEN" and message "Service account not authorized" and
does not invoke the wrapped handler; a response with status 403 is written in
no other case; and with namespace `pico-system` the identity
`system:serviceaccount:default:someone` gets 403. -/
theorem authMiddleware_forbidden :
    (∀ (s : Server) (r : Request) (token username : GoString),
      s.config.DisableAuth = false →
      r.HeaderGetAuthorization = str "Bearer " ++ token →
      (validateServiceAccountToken s r.ctx token).1 = (true, username, none) →
      isAuthorizedServiceAccount s username = false →
        authMiddleware s r =
          [.headerGet (str "Authorization"),
           .tokenReviewCreate r.ctx ⟨⟨token⟩, TokenReviewStatus.zero⟩,
           .logPrintf (str "Unauthorized service account: " ++ username),
           .respondError 403 (str "FORBIDDEN") (str "Service account not authorized")] ∧
        (authMiddleware s r).filter Event.isRespondError =
          [.respondError 403 (str "FORBIDDEN") (str "Service account not authorized")] ∧
        Event.next ∉ authMiddleware s r) ∧
    (∀ (s : Server) (r : Request) (code message : GoString),
      Event.respondError 403 code message ∈ authMiddleware s r →
        s.config.DisableAuth = false ∧
        ∃ token username,
          r.HeaderGetAuthorization = str "Bearer " ++ token ∧
          (validateServiceAccountToken s r.ctx token).1 = (true, username, none) ∧
          isAuthorizedServiceAccount s username = false) ∧
    (∀ (k : K8sClient) (r : Request) (token : GoString) (spec : TokenReviewSpec),
      r.HeaderGetAuthorization = str "Bearer " ++ token →
      k.createTokenReview r.ctx ⟨⟨token⟩, TokenReviewStatus.zero⟩ =
        (⟨spec, ⟨true, ⟨str "system:serviceaccount:default:someone"⟩⟩⟩, none) →
        (authMiddleware ⟨⟨str "pico-system", false⟩, k⟩ r).filter Event.isRespondError =
          [.respondError 403 (str "FORBIDDEN") (str "Service account not authorized")]) := by
  refine ⟨?_, ?_, ?_⟩
  · intro s r token username hd hh hv hz
    rw [← SplitN_eq_Bearer_iff] at hh
    rw [authMiddleware_bearer_result s r token true username none hd hh hv]
    simp [hz, Event.isRespondError]
  · intro s r code message hm
    rcases authMiddleware_table s r with
      ⟨-, ht⟩ | ⟨-, -, ht⟩ | ⟨-, -, -, ht⟩ |
      ⟨hd, token, hp, ⟨a, u, err, -, ht⟩ | ⟨u, -, ht⟩ | ⟨u, hv, hz, ht⟩ | ⟨u, -, -, ht⟩⟩
    all_goals first
      | (rw [ht] at hm; simp at hm; done)
      | exact ⟨hd, token, u, (SplitN_eq_Bearer_iff _ _).1 hp, hv, hz⟩
  · intro k r token spec hh hc
    rw [← SplitN_eq_Bearer_iff] at hh
    have hv : (validateServiceAccountToken ⟨⟨str "pico-system", false⟩, k⟩ r.ctx token).1 =
        (true, str "system:serviceaccount:default:someone", none) := by
      rw [validateServiceAccountToken_result]
      simp only [hc]
      rfl
    rw [authMiddleware_bearer_result _ r token true _ none rfl hh hv]
    have hz : isAuthorizedServiceAccount ⟨⟨str "pico-system", false⟩, k⟩
        (str "system:serviceaccount:default:someone") = false := by
      simp only [isAuthorizedServiceAccount]
      decide
    simp [hz, Event.isRespondError]

/-- C5, at a concrete input: namespace `pico-system`, header `Bearer other`,
the identity service reports `system:serviceaccount:default:someone`. -/
theorem authMiddleware_forbidden_witness :
    authMiddleware
        (exampleServer (str "pico-system") false
          ⟨true, ⟨str "system:serviceaccount:default:someone"⟩⟩ none)
        (exampleRequest (some (str "Bearer other"))) =
      [.headerGet (str "Authorization"),
       .tokenReviewCreate ⟨0⟩ ⟨⟨str "other"⟩, TokenReviewStatus.zero⟩,
       .logPrintf (str "Unauthorized service account: " ++
          str "system:serviceaccount:default:someone"),
       .respondError 403 (str "FORBIDDEN") (str "Service account not authorized")] ∧
    (authMiddleware
        (exampleServer (str "pico-system") false
          ⟨true, ⟨str "system:serviceaccount:default:someone"⟩⟩ none)
        (exampleRequest (some (str "Bearer other")))).filter Event.isRespondError =
      [.respondError 403 (str "FORBIDDEN") (str "Service account not authorized")] ∧
    Event.next ∉ authMiddleware
        (exampleServer (str "pico-system") false
          ⟨true, ⟨str "system:serviceaccount:default:someone"⟩⟩ none)
        (exampleRequest (some (str "Bearer other"))) :=
  authMiddleware_forbidden.1
    (exampleServer (str "pico-system") false
      ⟨true, ⟨str "system:serviceaccount:default:someone"⟩⟩ none)
    (exampleRequest (some (str "Bearer other"))) (str "other")
    (str "system:serviceaccount:default:someone") rfl (by decide) (by decide) (by decide)

/-- C6: with auth enabled, if the `Authorization` header is absent or the empty
string, the middleware responds with status 401, code "UNAUTHORIZED" and
message "Missing authorization header"; the identity verifier is not called
and the wrapped handler is not invoked. -/
theorem authMiddleware_missing_header (s : Server) (r : Request)
    (hd : s.config.DisableAuth = false)
    (hh : r.Authorization = none ∨ r.Authorization = some []) :
    authMiddleware s r =
      [.headerGet (str "Authorization"),
       .respondError 401 (str "UNAUTHORIZED") (str "Missing authorization header")] ∧
    (authMiddleware s r).countP Event.isTokenReviewCreate = 0 ∧
    Event.next ∉ authMiddleware s r := by
  have h0 : r.HeaderGetAuthorization = [] := by
    unfold Request.HeaderGetAuthorization
    rcases hh with h | h <;> rw [h] <;> rfl
  rw [authMiddleware_missing s r hd h0]
  simp [Event.isTokenReviewCreate]

/-- C6, at concrete inputs: the header absent, and the header present and
empty. -/
theorem authMiddleware_missing_header_witness :
    (authMiddleware
        (exampleServer (str "pico-system") false
          ⟨true, ⟨str "system:serviceaccount:pico-system:pico-apiserver"⟩⟩ none)
        (exampleRequest none) =
      [.headerGet (str "Authorization"),
       .respondError 401 (str "UNAUTHORIZED") (str "Missing authorization header")]) ∧
    (authMiddleware
        (exampleServer (str "pico-system") false
          ⟨true, ⟨str "system:serviceaccount:pico-system:pico-apiserver"⟩⟩ none)
        (exampleRequest (some [])) =
      [.headerGet (str "Authorization"),
       .respondError 401 (str "UNAUTHORIZED") (str "Missing authorization header")]) :=
  ⟨(authMiddleware_missing_header _ (exampleRequest none) rfl (Or.inl rfl)).1,
   (authMiddleware_missing_header _ (exampleRequest (some [])) rfl (Or.inr rfl)).1⟩


/-- C7: with auth enabled, for every non-empty `Authorization` header whose
split on the first ASCII space into at most two parts does not give exactly two
parts with the first part byte-equal to "Bearer", the middleware responds with
status 401, code "UNAUTHORIZED" and message "Invalid authorization header
format", without calling the identity verifier or the wrapped handler; the
headers "Bearer" (no token), "bearer xyz" (lowercase scheme) and "Token abc"
are such headers. -/
theorem authMiddleware_malformed_header :
    (∀ (s : Server) (r : Request),
      s.config.DisableAuth = false →
      r.HeaderGetAuthorization ≠ [] →
      ¬ ((SplitN r.HeaderGetAuthorization (str " ") 2).length = 2 ∧
          (SplitN r.HeaderGetAuthorization (str " ") 2).head? = some (str "Bearer")) →
        authMiddleware s r =
          [.headerGet (str "Authorization"),
           .respondError 401 (str "UNAUTHORIZED")
             (str "Invalid authorization header format")] ∧
        (authMiddleware s r).countP Event.isTokenReviewCreate = 0 ∧
        Event.next ∉ authMiddleware s r) ∧
    (∀ (s : Server) (ctx : Context) (header : GoString),
      s.config.DisableAuth = false →
      header = str "Bearer" ∨ header = str "bearer xyz" ∨ header = str "Token abc" →
        authMiddleware s ⟨some header, ctx⟩ =
          [.headerGet (str "Authorization"),
           .respondError 401 (str "UNAUTHORIZED")
             (str "Invalid authorization header format")]) := by
  have main : ∀ (s : Server) (r : Request),
      s.config.DisableAuth = false →
      r.HeaderGetAuthorization ≠ [] →
      ¬ ((SplitN r.HeaderGetAuthorization (str " ") 2).length = 2 ∧
          (SplitN r.HeaderGetAuthorization (str " ") 2).head? = some (str "Bearer")) →
        authMiddleware s r =
          [.headerGet (str "Authorization"),
           .respondError 401 (str "UNAUTHORIZED")
             (str "Invalid authorization header format")] := by
    intro s r hd hh hp
    rw [two_parts_iff] at hp
    exact authMiddleware_malformed s r hd hh hp
  refine ⟨?_, ?_⟩
  · intro s r hd hh hp
    rw [main s r hd hh hp]
    simp [Event.isTokenReviewCreate]
  · intro s ctx header hd hx
    apply main s ⟨some header, ctx⟩ hd
    · rcases hx with h | h | h <;> subst h <;>
      · simp only [Request.HeaderGetAuthorization, Option.getD_some]
        decide
    · rcases hx with h | h | h <;> subst h <;>
      · simp only [Request.HeaderGetAuthorization, Option.getD_some]
        decide

/-- C7, at a concrete input: the header `Basic dXNlcg==`. -/
theorem authMiddleware_malformed_header_witness :
    authMiddleware
        (exampleServer (str "pico-system") false
          ⟨true, ⟨str "system:serviceaccount:pico-system:pico-apiserver"⟩⟩ none)
        (exampleRequest (some (str "Basic dXNlcg=="))) =
      [.headerGet (str "Authorization"),
       .respondError 401 (str "UNAUTHORIZED") (str "Invalid authorization header format")] ∧
    (authMiddleware
        (exampleServer (str "pico-system") false
          ⟨true, ⟨str "system:serviceaccount:pico-system:pico-apiserver"⟩⟩ none)
        (exampleRequest (some (str "Basic dXNlcg==")))).countP Event.isTokenReviewCreate = 0 ∧
    Event.next ∉ authMiddleware
        (exampleServer (str "pico-system") false
          ⟨true, ⟨str "system:serviceaccount:pico-system:pico-apiserver"⟩⟩ none)
        (exampleRequest (some (str "Basic dXNlcg=="))) :=
  authMiddleware_malformed_header.1 _ (exampleRequest (some (str "Basic dXNlcg==")))
    rfl (by decide) (by decide)

/-- C8: with auth enabled and a well-formed Bearer header, if the token review
call fails with any error `e`, the middleware logs the error and responds with
status 401, code "UNAUTHORIZED" and the fixed message "Token validation
failed", and does not invoke the wrapped handler; the response written does not
depend on `e` or on the token. -/
theorem authMiddleware_review_error (s : Server) (r : Request) (token : GoString)
    (res : TokenReview) (e : GoError)
    (hd : s.config.DisableAuth = false)
    (hh : r.HeaderGetAuthorization = str "Bearer " ++ token)
    (hc : s.k8sClient.createTokenReview r.ctx ⟨⟨token⟩, TokenReviewStatus.zero⟩
      = (res, some e)) :
    authMiddleware s r =
      [.headerGet (str "Authorization"),
       .tokenReviewCreate r.ctx ⟨⟨token⟩, TokenReviewStatus.zero⟩,
       .logPrintf (str "Token validation error: " ++ (str "failed to review token: " ++ e.Error)),
       .respondError 401 (str "UNAUTHORIZED") (str "Token validation failed")] ∧
    (authMiddleware s r).filter Event.isRespondError =
      [.respondError 401 (str "UNAUTHORIZED") (str "Token validation failed")] ∧
    Event.next ∉ authMiddleware s r := by
  rw [← SplitN_eq_Bearer_iff] at hh
  have hv : (validateServiceAccountToken s r.ctx token).1 =
      (false, [], some (errorfFailedToReviewToken e)) := by
    rw [validateServiceAccountToken_result, hc]
  rw [authMiddleware_bearer_result s r token _ _ _ hd hh hv]
  simp [Event.isRespondError, errorfFailedToReviewToken, GoError.Error]

/-- C8, at a concrete input: header `Bearer any`, the review call fails with
the error "network". -/
theorem authMiddleware_review_error_witness :
    authMiddleware
        (exampleServer (str "pico-system") false TokenReviewStatus.zero
          (some (.base (str "network"))))
        (exampleRequest (some (str "Bearer any"))) =
      [.headerGet (str "Authorization"),
       .tokenReviewCreate ⟨0⟩ ⟨⟨str "any"⟩, TokenReviewStatus.zero⟩,
       .logPrintf (str "Token validation error: " ++
          (str "failed to review token: " ++ str "network")),
       .respondError 401 (str "UNAUTHORIZED") (str "Token validation failed")] ∧
    (authMiddleware
        (exampleServer (str "pico-system") false TokenReviewStatus.zero
          (some (.base (str "network"))))
        (exampleRequest (some (str "Bearer any")))).filter Event.isRespondError =
      [.respondError 401 (str "UNAUTHORIZED") (str "Token validation failed")] ∧
    Event.next ∉ authMiddleware
        (exampleServer (str "pico-system") false TokenReviewStatus.zero
          (some (.base (str "network"))))
        (exampleRequest (some (str "Bearer any"))) :=
  authMiddleware_review_error
    (exampleServer (str "pico-system") false TokenReviewStatus.zero
      (some (.base (str "network"))))
    (exampleRequest (some (str "Bearer any"))) (str "any")
    ⟨⟨str "any"⟩, TokenReviewStatus.zero⟩ (.base (str "network")) rfl (by decide) rfl

/-- C9: with auth enabled and a well-formed Bearer header, if the identity
service answers without error and reports `authenticated = false`, the
middleware responds with status 401, code "UNAUTHORIZED" and message "Invalid
or expired token" and does not invoke the wrapped handler, whatever username
the service reported. -/
theorem authMiddleware_unauthenticated (s : Server) (r : Request) (token : GoString)
    (res : TokenReview)
    (hd : s.config.DisableAuth = false)
    (hh : r.HeaderGetAuthorization = str "Bearer " ++ token)
    (hc : s.k8sClient.createTokenReview r.ctx ⟨⟨token⟩, TokenReviewStatus.zero⟩ = (res, none))
    (ha : res.Status.Authenticated = false) :
    authMiddleware s r =
      [.headerGet (str "Authorization"),
       .tokenReviewCreate r.ctx ⟨⟨token⟩, TokenReviewStatus.zero⟩,
       .respondError 401 (str "UNAUTHORIZED") (str "Invalid or expired token")] ∧
    (authMiddleware s r).filter Event.isRespondError =
      [.respondError 401 (str "UNAUTHORIZED") (str "Invalid or expired token")] ∧
    Event.next ∉ authMiddleware s r := by
  rw [← SplitN_eq_Bearer_iff] at hh
  have hv : (validateServiceAccountToken s r.ctx token).1 = (false, [], none) := by
    rw [validateServiceAccountToken_result, hc]
    simp [ha]
  rw [authMiddleware_bearer_result s r token _ _ _ hd hh hv]
  simp [Event.isRespondError]

/-- C9, at a concrete input: header `Bearer expired`, the service reports
`authenticated = false` together with an allow-listed username. -/
theorem authMiddleware_unauthenticated_witness :
    authMiddleware
        (exampleServer (str "pico-system") false
          ⟨false, ⟨str "system:serviceaccount:pico-system:pico-apiserver"⟩⟩ none)
        (exampleRequest (some (str "Bearer expired"))) =
      [.headerGet (str "Authorization"),
       .tokenReviewCreate ⟨0⟩ ⟨⟨str "expired"⟩, TokenReviewStatus.zero⟩,
       .respondError 401 (str "UNAUTHORIZED") (str "Invalid or expired token")] ∧
    (authMiddleware
        (exampleServer (str "pico-system") false
          ⟨false, ⟨str "system:serviceaccount:pico-system:pico-apiserver"⟩⟩ none)
        (exampleRequest (some (str "Bearer expired")))).filter Event.isRespondError =
      [.respondError 401 (str "UNAUTHORIZED") (str "Invalid or expired token")] ∧
    Event.next ∉ authMiddleware
        (exampleServer (str "pico-system") false
          ⟨false, ⟨str "system:serviceaccount:pico-system:pico-apiserver"⟩⟩ none)
        (exampleRequest (some (str "Bearer expired"))) :=
  authMiddleware_unauthenticated
    (exampleServer (str "pico-system") false
      ⟨false, ⟨str "system:serviceaccount:pico-system:pico-apiserver"⟩⟩ none)
    (exampleRequest (some (str "Bearer expired"))) (str "expired")
    ⟨⟨str "expired"⟩, ⟨false, ⟨str "system:serviceaccount:pico-system:pico-apiserver"⟩⟩⟩
    rfl (by decide) rfl rfl

/-- C10: `validateServiceAccountToken` classifies the identity service's
answer, for every token: if the review call fails with `e` it returns
`(false, "", err)` with `err` the non-nil error wrapping `e`; if the call
succeeds with `authenticated = false` it returns `(false, "", nil)` whatever
username was reported; if the call succeeds with `authenticated = true` it
returns `(true, username, nil)` with exactly the reported username. In each
case the identity client is called once, with the token unchanged. -/
theorem validateServiceAccountToken_classifies (s : Server) (ctx : Context)
    (token : GoString) :
    (∀ res e,
      s.k8sClient.createTokenReview ctx ⟨⟨token⟩, TokenReviewStatus.zero⟩ = (res, some e) →
        (validateServiceAccountToken s ctx token).1 =
          (false, [], some (errorfFailedToReviewToken e))) ∧
    (∀ res,
      s.k8sClient.createTokenReview ctx ⟨⟨token⟩, TokenReviewStatus.zero⟩ = (res, none) →
      res.Status.Authenticated = false →
        (validateServiceAccountToken s ctx token).1 = (false, [], none)) ∧
    (∀ res,
      s.k8sClient.createTokenReview ctx ⟨⟨token⟩, TokenReviewStatus.zero⟩ = (res, none) →
      res.Status.Authenticated = true →
        (validateServiceAccountToken s ctx token).1 =
          (true, res.Status.User.Username, none)) ∧
    (validateServiceAccountToken s ctx token).2 =
      [.tokenReviewCreate ctx ⟨⟨token⟩, TokenReviewStatus.zero⟩] := by
  refine ⟨?_, ?_, ?_, validateServiceAccountToken_events s ctx token⟩
  · intro res e hc
    rw [validateServiceAccountToken_result, hc]
  · intro res hc ha
    rw [validateServiceAccountToken_result, hc]
    simp [ha]
  · intro res hc ha
    rw [validateServiceAccountToken_result, hc]
    simp [ha]

/-- C10, at concrete inputs: a failing call, an unauthenticated answer that
carries a username, and an authenticated answer. -/
theorem validateServiceAccountToken_classifies_witness :
    (validateServiceAccountToken
        (exampleServer (str "pico-system") false TokenReviewStatus.zero
          (some (.base (str "network")))) ⟨0⟩ (str "any")).1 =
      (false, [], some (.wrapped (str "failed to review token: network")
        (.base (str "network")))) ∧
    (validateServiceAccountToken
        (exampleServer (str "pico-system") false
          ⟨false, ⟨str "system:serviceaccount:pico:pico-apiserver"⟩⟩ none)
        ⟨0⟩ (str "expired")).1 = (false, [], none) ∧
    (validateServiceAccountToken
        (exampleServer (str "pico-system") false
          ⟨true, ⟨str "system:serviceaccount:default:someone"⟩⟩ none)
        ⟨0⟩ (str "other")).1 = (true, str "system:serviceaccount:default:someone", none) :=
  ⟨(validateServiceAccountToken_classifies
      (exampleServer (str "pico-system") false TokenReviewStatus.zero
        (some (.base (str "network")))) ⟨0⟩ (str "any")).1 _ _ rfl,
   (validateServiceAccountToken_classifies
      (exampleServer (str "pico-system") false
        ⟨false, ⟨str "system:serviceaccount:pico:pico-apiserver"⟩⟩ none)
      ⟨0⟩ (str "expired")).2.1 _ rfl rfl,
   (validateServiceAccountToken_classifies
      (exampleServer (str "pico-system") false
        ⟨true, ⟨str "system:serviceaccount:default:someone"⟩⟩ none)
      ⟨0⟩ (str "other")).2.2.1 _ rfl rfl⟩


/-- C11 (the claim as stated fails): at this input the identity service
reports `authenticated = true` with an empty username and no error, and
`validateServiceAccountToken` returns `(true, "", nil)`, not
`authenticated = false`. -/
theorem validateServiceAccountToken_empty_username_counterexample :
    ((exampleServer (str "pico-system") false ⟨true, ⟨[]⟩⟩ none).k8sClient.createTokenReview
        ⟨0⟩ ⟨⟨str "tok"⟩, TokenReviewStatus.zero⟩).1.Status = ⟨true, ⟨[]⟩⟩ ∧
    ((exampleServer (str "pico-system") false ⟨true, ⟨[]⟩⟩ none).k8sClient.createTokenReview
        ⟨0⟩ ⟨⟨str "tok"⟩, TokenReviewStatus.zero⟩).2 = none ∧
    (validateServiceAccountToken (exampleServer (str "pico-system") false ⟨true, ⟨[]⟩⟩ none)
        ⟨0⟩ (str "tok")).1 = (true, [], none) ∧
    ¬ (validateServiceAccountToken (exampleServer (str "pico-system") false ⟨true, ⟨[]⟩⟩ none)
        ⟨0⟩ (str "tok")).1.1 = false := by
  decide

/-- C11 (amended): `validateServiceAccountToken` passes an empty username
through: for every token, if the identity service answers without error and
reports `authenticated = true` with an empty username, the verifier returns
`(true, "", nil)`; and it returns `(true, "", nil)` only in that case. -/
theorem validateServiceAccountToken_empty_username (s : Server) (ctx : Context)
    (token : GoString) :
    (validateServiceAccountToken s ctx token).1 = (true, [], none) ↔
      ((s.k8sClient.createTokenReview ctx ⟨⟨token⟩, TokenReviewStatus.zero⟩).2 = none ∧
       (s.k8sClient.createTokenReview ctx
          ⟨⟨token⟩, TokenReviewStatus.zero⟩).1.Status.Authenticated = true ∧
       (s.k8sClient.createTokenReview ctx
          ⟨⟨token⟩, TokenReviewStatus.zero⟩).1.Status.User.Username = []) := by
  rw [validateServiceAccountToken_result]
  rcases s.k8sClient.createTokenReview ctx ⟨⟨token⟩, TokenReviewStatus.zero⟩ with ⟨res, e⟩
  cases e with
  | some err => simp
  | none =>
    cases ha : res.Status.Authenticated <;> simp [ha]

/-- C12: an authenticated result with an empty username is denied by the
pipeline: for every configured namespace (the empty one included)
`isAuthorizedServiceAccount("")` is false, and with auth enabled, whenever the
verifier, called in the run on the request's token, yields `(true, "", nil)`,
the wrapped handler is not invoked and one error response (403 FORBIDDEN) is
written. -/
theorem authMiddleware_empty_username_denied :
    (∀ s : Server, isAuthorizedServiceAccount s [] = false) ∧
    (∀ k : K8sClient, isAuthorizedServiceAccount ⟨⟨[], false⟩, k⟩ [] = false) ∧
    (∀ (s : Server) (r : Request) (token : GoString),
      s.config.DisableAuth = false →
      Event.tokenReviewCreate r.ctx ⟨⟨token⟩, TokenReviewStatus.zero⟩ ∈ authMiddleware s r →
      (validateServiceAccountToken s r.ctx token).1 = (true, [], none) →
        Event.next ∉ authMiddleware s r ∧
        (authMiddleware s r).filter Event.isRespondError =
          [.respondError 403 (str "FORBIDDEN") (str "Service account not authorized")]) := by
  refine ⟨isAuthorizedServiceAccount_nil, fun k => isAuthorizedServiceAccount_nil _, ?_⟩
  intro s r token hd hm hv
  obtain ⟨-, -, token', htr, hp⟩ := authMiddleware_review_mem s r _ _ hm
  simp only [TokenReview.mk.injEq, TokenReviewSpec.mk.injEq, and_true] at htr
  subst htr
  rw [authMiddleware_bearer_result s r token true [] none hd hp hv]
  simp [isAuthorizedServiceAccount_nil, Event.isRespondError]

/-- C12, at a concrete input: namespace `pico-system`, header `Bearer tok`, the
identity service reports `authenticated = true` with an empty username. -/
theorem authMiddleware_empty_username_denied_witness :
    Event.next ∉ authMiddleware
        (exampleServer (str "pico-system") false ⟨true, ⟨[]⟩⟩ none)
        (exampleRequest (some (str "Bearer tok"))) ∧
    (authMiddleware
        (exampleServer (str "pico-system") false ⟨true, ⟨[]⟩⟩ none)
        (exampleRequest (some (str "Bearer tok")))).filter Event.isRespondError =
      [.respondError 403 (str "FORBIDDEN") (str "Service account not authorized")] :=
  authMiddleware_empty_username_denied.2.2
    (exampleServer (str "pico-system") false ⟨true, ⟨[]⟩⟩ none)
    (exampleRequest (some (str "Bearer tok"))) (str "tok") rfl (by decide) (by decide)


/-- C13: with auth enabled, for every header that passes the scheme check, the
token-review request carries exactly the part of the header after its first
ASCII space (the header is "Bearer", one space, and that token; "Bearer" holds
no space), with no trimming or other change, and the review is called with it:
header "Bearer  xyz" (two spaces) sends the token " xyz", and header "Bearer "
sends the empty token and still calls the verifier. -/
theorem authMiddleware_token_verbatim :
    (∀ (s : Server) (r : Request),
      s.config.DisableAuth = false →
      (SplitN r.HeaderGetAuthorization (str " ") 2).length = 2 →
      (SplitN r.HeaderGetAuthorization (str " ") 2).head? = some (str "Bearer") →
        ∃ token,
          r.HeaderGetAuthorization = str "Bearer" ++ [32] ++ token ∧
          (authMiddleware s r).filter Event.isTokenReviewCreate =
            [.tokenReviewCreate r.ctx ⟨⟨token⟩, TokenReviewStatus.zero⟩]) ∧
    (32 : UInt8) ∉ str "Bearer" ∧
    (∀ (s : Server) (ctx : Context),
      s.config.DisableAuth = false →
        (authMiddleware s ⟨some (str "Bearer  xyz"), ctx⟩).filter Event.isTokenReviewCreate =
          [.tokenReviewCreate ctx ⟨⟨str " xyz"⟩, TokenReviewStatus.zero⟩]) ∧
    (∀ (s : Server) (ctx : Context),
      s.config.DisableAuth = false →
        (authMiddleware s ⟨some (str "Bearer "), ctx⟩).filter Event.isTokenReviewCreate =
          [.tokenReviewCreate ctx ⟨⟨[]⟩, TokenReviewStatus.zero⟩]) := by
  refine ⟨?_, by decide, ?_, ?_⟩
  · intro s r hd h1 h2
    obtain ⟨token, hp⟩ := (two_parts_iff _).1 ⟨h1, h2⟩
    refine ⟨token, ?_, authMiddleware_review_filter s r token hd hp⟩
    have := (SplitN_space_two_eq_pair _ _ _).1 hp
    rw [this.2]
    simp
  · intro s ctx hd
    exact authMiddleware_review_filter s ⟨some (str "Bearer  xyz"), ctx⟩ (str " xyz") hd
      (by simp only [Request.HeaderGetAuthorization, Option.getD_some]; decide)
  · intro s ctx hd
    exact authMiddleware_review_filter s ⟨some (str "Bearer "), ctx⟩ [] hd
      (by simp only [Request.HeaderGetAuthorization, Option.getD_some]; decide)

/-- C13, at a concrete input: the header `Bearer a b  c` sends the token
`a b  c` with all its spaces. -/
theorem authMiddleware_token_verbatim_witness :
    ∃ token,
      (exampleRequest (some (str "Bearer a b  c"))).HeaderGetAuthorization =
        str "Bearer" ++ [32] ++ token ∧
      (authMiddleware
          (exampleServer (str "pico-system") false TokenReviewStatus.zero none)
          (exampleRequest (some (str "Bearer a b  c")))).filter Event.isTokenReviewCreate =
        [.tokenReviewCreate (exampleRequest (some (str "Bearer a b  c"))).ctx
          ⟨⟨token⟩, TokenReviewStatus.zero⟩] :=
  authMiddleware_token_verbatim.1
    (exampleServer (str "pico-system") false TokenReviewStatus.zero none)
    (exampleRequest (some (str "Bearer a b  c"))) rfl (by decide) (by decide)

/-- C14: the token does not flow into the responses or the log records. Every
error response the middleware writes is one of five constants; and for two
runs under the same configuration whose headers are `Bearer` followed by any
two tokens, if the verifier returns the same `(authenticated, username, err)`
in both, the runs write identical responses and identical log records and
agree on whether the wrapped handler is invoked. -/
theorem authMiddleware_token_noninterference :
    (∀ (s : Server) (r : Request) (status : Nat) (code message : GoString),
      Event.respondError status code message ∈ authMiddleware s r →
        (status, code, message) ∈
          [(401, str "UNAUTHORIZED", str "Missing authorization header"),
           (401, str "UNAUTHORIZED", str "Invalid authorization header format"),
           (401, str "UNAUTHORIZED", str "Token validation failed"),
           (401, str "UNAUTHORIZED", str "Invalid or expired token"),
           (403, str "FORBIDDEN", str "Service account not authorized")]) ∧
    (∀ (s₁ s₂ : Server) (r₁ r₂ : Request) (token₁ token₂ : GoString),
      s₁.config = s₂.config →
      r₁.HeaderGetAuthorization = str "Bearer " ++ token₁ →
      r₂.HeaderGetAuthorization = str "Bearer " ++ token₂ →
      (validateServiceAccountToken s₁ r₁.ctx token₁).1 =
        (validateServiceAccountToken s₂ r₂.ctx token₂).1 →
        responsesAndLogs (authMiddleware s₁ r₁) = responsesAndLogs (authMiddleware s₂ r₂) ∧
        (Event.next ∈ authMiddleware s₁ r₁ ↔ Event.next ∈ authMiddleware s₂ r₂)) := by
  constructor
  · intro s r status code message hm
    rcases authMiddleware_table s r with
      ⟨-, ht⟩ | ⟨-, -, ht⟩ | ⟨-, -, -, ht⟩ |
      ⟨-, token, -, ⟨a, u, err, -, ht⟩ | ⟨u, -, ht⟩ | ⟨u, -, -, ht⟩ | ⟨u, -, -, ht⟩⟩ <;>
    · rw [ht] at hm
      simp at hm
      try (obtain ⟨rfl, rfl, rfl⟩ := hm; simp)
  · intro s₁ s₂ r₁ r₂ token₁ token₂ hc h1 h2 hv
    by_cases hd : s₁.config.DisableAuth = true
    · have hd2 : s₂.config.DisableAuth = true := by rw [← hc]; exact hd
      rw [authMiddleware_disabled s₁ r₁ hd, authMiddleware_disabled s₂ r₂ hd2]
      exact ⟨rfl, Iff.rfl⟩
    · have hd1 : s₁.config.DisableAuth = false := by simpa using hd
      have hd2 : s₂.config.DisableAuth = false := by rw [← hc]; exact hd1
      rw [← SplitN_eq_Bearer_iff] at h1 h2
      rcases hv2 : (validateServiceAccountToken s₂ r₂.ctx token₂).1 with ⟨a, u, e⟩
      rw [hv2] at hv
      rw [authMiddleware_bearer_result s₁ r₁ token₁ a u e hd1 h1 hv,
        authMiddleware_bearer_result s₂ r₂ token₂ a u e hd2 h2 hv2,
        isAuthorizedServiceAccount_config s₁ s₂ hc u]
      cases e with
      | some err => simp [responsesAndLogs, Event.isRespondError, Event.isLog]
      | none =>
        cases a with
        | false => simp [responsesAndLogs, Event.isRespondError, Event.isLog]
        | true =>
          cases isAuthorizedServiceAccount s₂ u <;>
            simp [responsesAndLogs, Event.isRespondError, Event.isLog]

/-- C14, at a concrete input: two tokens, the same refused identity reported
for both. -/
theorem authMiddleware_token_noninterference_witness :
    responsesAndLogs (authMiddleware
        (exampleServer (str "pico-system") false
          ⟨true, ⟨str "system:serviceaccount:default:someone"⟩⟩ none)
        (exampleRequest (some (str "Bearer first")))) =
      responsesAndLogs (authMiddleware
        (exampleServer (str "pico-system") false
          ⟨true, ⟨str "system:serviceaccount:default:someone"⟩⟩ none)
        (exampleRequest (some (str "Bearer second")))) ∧
    (Event.next ∈ authMiddleware
        (exampleServer (str "pico-system") false
          ⟨true, ⟨str "system:serviceaccount:default:someone"⟩⟩ none)
        (exampleRequest (some (str "Bearer first"))) ↔
      Event.next ∈ authMiddleware
        (exampleServer (str "pico-system") false
          ⟨true, ⟨str "system:serviceaccount:default:someone"⟩⟩ none)
        (exampleRequest (some (str "Bearer second")))) :=
  authMiddleware_token_noninterference.2
    (exampleServer (str "pico-system") false
      ⟨true, ⟨str "system:serviceaccount:default:someone"⟩⟩ none)
    (exampleServer (str "pico-system") false
      ⟨true, ⟨str "system:serviceaccount:default:someone"⟩⟩ none)
    (exampleRequest (some (str "Bearer first"))) (exampleRequest (some (str "Bearer second")))
    (str "first") (str "second") rfl (by decide) (by decide) (by decide)


/-- C15: the authorization predicate has prefix semantics, not equality: for
every namespace, username `u` and suffix, if `isAuthorizedServiceAccount(u)` is
true then so is `isAuthorizedServiceAccount(u ++ suffix)`; in particular
`"system:serviceaccount:" ++ ns ++ ":pico-apiserver-extra"` is authorized. -/
theorem isAuthorizedServiceAccount_suffix_closed :
    (∀ (s : Server) (u suffix : GoString),
      isAuthorizedServiceAccount s u = true →
        isAuthorizedServiceAccount s (u ++ suffix) = true) ∧
    (∀ s : Server,
      isAuthorizedServiceAccount s
        (str "system:serviceaccount:" ++ s.config.Namespace ++ str ":pico-apiserver-extra")
        = true) := by
  refine ⟨isAuthorizedServiceAccount_append, ?_⟩
  intro s
  have he : str ":pico-apiserver-extra" = str ":pico-apiserver" ++ str "-extra" := by decide
  unfold isAuthorizedServiceAccount
  simp only [Bool.or_eq_true, HasPrefix_iff]
  left
  rw [he, ← List.append_assoc]
  exact List.prefix_append _ _

/-- C15, at a concrete input: namespace `pico-system`, the exact service
account name extended by `-extra`. -/
theorem isAuthorizedServiceAccount_suffix_closed_witness :
    isAuthorizedServiceAccount
        (exampleServer (str "pico-system") false TokenReviewStatus.zero none)
        (str "system:serviceaccount:pico-system:pico-apiserver" ++ str "-extra") = true :=
  isAuthorizedServiceAccount_suffix_closed.1
    (exampleServer (str "pico-system") false TokenReviewStatus.zero none)
    (str "system:serviceaccount:pico-system:pico-apiserver") (str "-extra") (by decide)

/-- C16: no retries and no caching: in every run of the middleware the identity
client's review operation is called at most once; it is called exactly once
precisely when auth is enabled and the header passes the scheme check, and zero
times when auth is disabled, the header is missing, or the header is
malformed; and every run that does not reach the wrapped handler ends with
exactly one error response. -/
theorem authMiddleware_review_at_most_once (s : Server) (r : Request) :
    (authMiddleware s r).countP Event.isTokenReviewCreate ≤ 1 ∧
    ((authMiddleware s r).countP Event.isTokenReviewCreate = 1 ↔
      (s.config.DisableAuth = false ∧
        (SplitN r.HeaderGetAuthorization (str " ") 2).length = 2 ∧
        (SplitN r.HeaderGetAuthorization (str " ") 2).head? = some (str "Bearer"))) ∧
    (s.config.DisableAuth = true →
      (authMiddleware s r).countP Event.isTokenReviewCreate = 0) ∧
    (r.HeaderGetAuthorization = [] →
      (authMiddleware s r).countP Event.isTokenReviewCreate = 0) ∧
    (¬ ((SplitN r.HeaderGetAuthorization (str " ") 2).length = 2 ∧
        (SplitN r.HeaderGetAuthorization (str " ") 2).head? = some (str "Bearer")) →
      (authMiddleware s r).countP Event.isTokenReviewCreate = 0) ∧
    (Event.next ∉ authMiddleware s r →
      (authMiddleware s r).countP Event.isRespondError = 1) := by
  have hzero : (s.config.DisableAuth = true ∨
      ¬ ∃ token, SplitN r.HeaderGetAuthorization (str " ") 2 = [str "Bearer", token]) →
      (authMiddleware s r).countP Event.isTokenReviewCreate = 0 := by
    intro h
    rw [List.countP_eq_length_filter, authMiddleware_no_review s r h]
    rfl
  have hone : ∀ token, s.config.DisableAuth = false →
      SplitN r.HeaderGetAuthorization (str " ") 2 = [str "Bearer", token] →
      (authMiddleware s r).countP Event.isTokenReviewCreate = 1 := by
    intro token hd hp
    rw [List.countP_eq_length_filter, authMiddleware_review_filter s r token hd hp]
    rfl
  have hcases : (s.config.DisableAuth = true ∨
      ¬ ∃ token, SplitN r.HeaderGetAuthorization (str " ") 2 = [str "Bearer", token]) ∨
      (s.config.DisableAuth = false ∧
        ∃ token, SplitN r.HeaderGetAuthorization (str " ") 2 = [str "Bearer", token]) := by
    cases s.config.DisableAuth
    · by_cases hp : ∃ token,
          SplitN r.HeaderGetAuthorization (str " ") 2 = [str "Bearer", token]
      · exact Or.inr ⟨rfl, hp⟩
      · exact Or.inl (Or.inr hp)
    · exact Or.inl (Or.inl rfl)
  refine ⟨?_, ?_, ?_, ?_, ?_, ?_⟩
  · rcases hcases with h | ⟨hd, token, hp⟩
    · rw [hzero h]; exact Nat.zero_le 1
    · rw [hone token hd hp]
  · rw [two_parts_iff]
    constructor
    · intro h1
      rcases hcases with h | h
      · rw [hzero h] at h1
        exact absurd h1 (by decide)
      · exact h
    · rintro ⟨hd, token, hp⟩
      exact hone token hd hp
  · intro hd
    exact hzero (Or.inl hd)
  · intro hh
    apply hzero
    right
    rintro ⟨token, hp⟩
    rw [hh, SplitN_space_two_nil] at hp
    simp at hp
  · intro hn
    rw [two_parts_iff] at hn
    exact hzero (Or.inr hn)
  · intro hn
    rcases authMiddleware_table s r with
      ⟨-, ht⟩ | ⟨-, -, ht⟩ | ⟨-, -, -, ht⟩ |
      ⟨-, token, -, ⟨a, u, err, -, ht⟩ | ⟨u, -, ht⟩ | ⟨u, -, -, ht⟩ | ⟨u, -, -, ht⟩⟩ <;>
    · rw [ht] at hn ⊢
      simp [List.countP_cons, Event.isRespondError] at hn ⊢

/-- C17: the scheme check built from `strings.SplitN(header, " ", 2)` is a
plain prefix test: for every header `h` (the empty one included),
`len(parts) == 2 && parts[0] == "Bearer"` holds if and only if `h` starts with
the seven bytes "Bearer ", and in that case `parts[1]` is `h` with those seven
bytes removed, so `h = "Bearer " ++ parts[1]`. -/
theorem scheme_check_iff_starts_with_Bearer (h : GoString) :
    (((SplitN h (str " ") 2).length = 2 ∧
        (SplitN h (str " ") 2).getD 0 [] = str "Bearer") ↔ str "Bearer " <+: h) ∧
    (str "Bearer ").length = 7 ∧
    (str "Bearer " <+: h →
      (SplitN h (str " ") 2).getD 1 [] = h.drop 7 ∧
      h = str "Bearer " ++ (SplitN h (str " ") 2).getD 1 []) := by
  have hl : (str "Bearer ").length = 7 := by decide
  have hfwd : str "Bearer " <+: h →
      SplitN h (str " ") 2 = [str "Bearer", h.drop 7] ∧ h = str "Bearer " ++ h.drop 7 := by
    rintro ⟨t, ht⟩
    have hd : h.drop 7 = t := by
      rw [← ht, ← hl, List.drop_left]
    rw [hd]
    exact ⟨(SplitN_eq_Bearer_iff h t).2 ht.symm, ht.symm⟩
  refine ⟨⟨?_, ?_⟩, hl, ?_⟩
  · rintro ⟨h1, h2⟩
    have hs : ¬ ((SplitN h (str " ") 2).length ≠ 2 ∨
        (SplitN h (str " ") 2).getD 0 [] ≠ str "Bearer") := by
      rintro (hx | hx)
      · exact hx h1
      · exact hx h2
    rw [scheme_check] at hs
    obtain ⟨token, hp⟩ := not_not.1 hs
    exact ⟨token, ((SplitN_eq_Bearer_iff h token).1 hp).symm⟩
  · intro hp
    rw [(hfwd hp).1]
    exact ⟨rfl, rfl⟩
  · intro hp
    obtain ⟨h1, h2⟩ := hfwd hp
    rw [h1]
    exact ⟨rfl, h2⟩

/-- C17, at a concrete input: the header `Bearer  xyz` (two spaces). -/
theorem scheme_check_iff_starts_with_Bearer_witness :
    (SplitN (str "Bearer  xyz") (str " ") 2).getD 1 [] = (str "Bearer  xyz").drop 7 ∧
    str "Bearer  xyz" = str "Bearer " ++ (SplitN (str "Bearer  xyz") (str " ") 2).getD 1 [] :=
  (scheme_check_iff_starts_with_Bearer (str "Bearer  xyz")).2.2 (by decide)

/-- C18: whatever the configured namespace is (empty, or with colons), every
username accepted by `isAuthorizedServiceAccount` starts with
"system:serviceaccount:" and contains ":pico-apiserver"; hence while auth is
enabled the wrapped handler is reached only after the verifier returned such a
username, and a human user, "system:admin" and the empty string are refused
under every configuration. -/
theorem isAuthorizedServiceAccount_only_service_accounts :
    (∀ (s : Server) (u : GoString),
      isAuthorizedServiceAccount s u = true →
        str "system:serviceaccount:" <+: u ∧ str ":pico-apiserver" <:+: u) ∧
    (∀ (s : Server) (r : Request),
      s.config.DisableAuth = false →
      Event.next ∈ authMiddleware s r →
        ∃ token u,
          r.HeaderGetAuthorization = str "Bearer " ++ token ∧
          (validateServiceAccountToken s r.ctx token).1 = (true, u, none) ∧
          str "system:serviceaccount:" <+: u ∧ str ":pico-apiserver" <:+: u) ∧
    (∀ s : Server,
      isAuthorizedServiceAccount s (str "alice@example.com") = false ∧
      isAuthorizedServiceAccount s (str "system:admin") = false ∧
      isAuthorizedServiceAccount s [] = false) := by
  refine ⟨isAuthorizedServiceAccount_shape, ?_, ?_⟩
  · intro s r hd hn
    rcases authMiddleware_table s r with
      ⟨hd', -⟩ | ⟨-, -, ht⟩ | ⟨-, -, -, ht⟩ |
      ⟨-, token, hp, ⟨a, u, err, -, ht⟩ | ⟨u, -, ht⟩ | ⟨u, -, -, ht⟩ | ⟨u, hv, hz, -⟩⟩
    · rw [hd] at hd'; simp at hd'
    · rw [ht] at hn; simp at hn
    · rw [ht] at hn; simp at hn
    · rw [ht] at hn; simp at hn
    · rw [ht] at hn; simp at hn
    · rw [ht] at hn; simp at hn
    · exact ⟨token, u, (SplitN_eq_Bearer_iff _ _).1 hp, hv,
        isAuthorizedServiceAccount_shape s u hz⟩
  · intro s
    have hno : ∀ u : GoString, HasPrefix u (str "system:serviceaccount:") = false →
        isAuthorizedServiceAccount s u = false := by
      intro u hu
      cases hz : isAuthorizedServiceAccount s u with
      | false => rfl
      | true =>
        have := (isAuthorizedServiceAccount_shape s u hz).1
        rw [← HasPrefix_iff, hu] at this
        simp at this
    exact ⟨hno _ (by decide), hno _ (by decide), hno _ (by decide)⟩

/-- C18, at a concrete input: namespace `a:b`, an accepted username. -/
theorem isAuthorizedServiceAccount_only_service_accounts_witness :
    str "system:serviceaccount:" <+: str "system:serviceaccount:a:b:pico-apiserver" ∧
    str ":pico-apiserver" <:+: str "system:serviceaccount:a:b:pico-apiserver" :=
  isAuthorizedServiceAccount_only_service_accounts.1
    (exampleServer (str "a:b") false TokenReviewStatus.zero none)
    (str "system:serviceaccount:a:b:pico-apiserver") (by decide)

end picoapiserver
